import Mathlib

/-!
Verification development for the PoI survey repository: a shallow embedding
of the survey application's data model and operations, with theorems about
the properties stated in the design document.
-/

namespace PoISurvey

/-! ## Offline aggregation pipeline (data_analysis/utils.py) -/

/-- Embedding of the dictionary passed to `df[col].map` in
`process_survey_responses` (data_analysis/utils.py, lines 55-60):
`\x7b'Version A': 1, 'Version B': -1, 'Both equally': 0\x7d`.
`pandas.Series.map` with a dict sends any key absent from the dict to NaN,
modelled here as `none`. -/
def preferenceScoreMap (choice : String) : Option Int :=
  if choice = "Version A" then some 1
  else if choice = "Version B" then some (-1)
  else if choice = "Both equally" then some 0
  else none

/-- The fields of one raw survey-response row that
`process_survey_responses` consults for the preference-score columns,
plus the recorded `is_manual_first` flag. -/
structure RawPreferenceRow where
  is_manual_first : Bool
  engaging_preference : String
  relevant_preference : String
  eager_preference : String
  title_preference : String
  description_preference : String
  deriving DecidableEq, Repr

/-- The score columns that `process_survey_responses` adds to a row. -/
structure PreferenceScores where
  engaging_preference_score : Option Int
  relevant_preference_score : Option Int
  eager_preference_score : Option Int
  title_preference_score : Option Int
  description_preference_score : Option Int
  deriving DecidableEq, Repr

/-- Embedding of the preference-score part of `process_survey_responses`
(data_analysis/utils.py, lines 51-60), restricted to one row: each of the
five `*_preference` columns is sent through `preferenceScoreMap` to produce
the corresponding `*_preference_score` column.  The row's
`is_manual_first` field is not consulted anywhere in this computation,
exactly as in the source. -/
def process_survey_row (r : RawPreferenceRow) : PreferenceScores :=
  { engaging_preference_score := preferenceScoreMap r.engaging_preference
    relevant_preference_score := preferenceScoreMap r.relevant_preference
    eager_preference_score := preferenceScoreMap r.eager_preference
    title_preference_score := preferenceScoreMap r.title_preference
    description_preference_score := preferenceScoreMap r.description_preference }

/-- Formalisation of the SPEC'S words for claim C1 (not of the source):
the score of a choice, accounting for which variant was displayed as slot
A as recorded in `is_manual_first`: the choice of the human-authored
variant maps to +1, the choice of the AI-generated variant to -1, "both
equally" to 0, anything else to missing.  When `isManualFirst` is true the
human-authored text was slot A; when it is false slot A was the
AI-generated text. -/
def claimVariantScore (isManualFirst : Bool) (choice : String) : Option Int :=
  if choice = "Version A" then some (if isManualFirst then 1 else -1)
  else if choice = "Version B" then some (if isManualFirst then -1 else 1)
  else if choice = "Both equally" then some 0
  else none

/-! ## Content personalization service (app.py / app/services/survey_service.py) -/

/-- A point of interest as stored in the catalog file
(`data/pois.json`): id, title, description, image source. -/
structure Poi where
  id : String
  title : String
  description : String
  imagesrc : String
  deriving DecidableEq, Repr

/-- The structured response produced by the generation endpoint
(`POIResponse` in app/models/survey_model.py): a title and a
description. -/
structure POIResponse where
  title : String
  description : String
  deriving DecidableEq, Repr

/-- Embedding of Python `s.rsplit(' ', 1)[0]` on the character list of
`s`: everything strictly before the last space character, or the whole
list when it contains no space. -/
def beforeLastSpace : List Char → List Char
  | [] => []
  | c :: cs =>
    if ' ' ∈ cs then c :: beforeLastSpace cs
    else if c = ' ' then []
    else c :: cs

/-- Embedding of the description post-processing in `generate_ai_content`
(app.py lines 162-164, survey_service.py lines 126-128): when the
generated description is longer than the original, replace it by
`generated_content.description[:max_description_length].rsplit(' ', 1)[0]`. -/
def truncate_description (maxLen : Nat) (s : String) : String :=
  if s.length > maxLen then String.mk (beforeLastSpace (s.data.take maxLen)) else s

/-- Outcome of one invocation of the hosted generation endpoint
(`client.beta.chat.completions.parse`), as seen by the `try` block of
`generate_ai_content`: either a parsed `POIResponse`, or any raised
exception. -/
inductive GenOutcome where
  | ok (response : POIResponse)
  | exn
  deriving DecidableEq, Repr

/-- The user profile, abstracted to an opaque value for the generation
service: `generate_ai_content` only interpolates it into the prompt
text, which does not affect the control flow modelled here. -/
def UserProfile := List (String × String)

/-- Embedding of `generate_ai_content` (app.py lines 87-173,
survey_service.py lines 64-137): invoke the endpoint once for the given
POI and user; on success, return the parsed response with the
description truncated to the original description's character length;
on any exception, return the sentinel response
`[Error generating title]` / `[Error generating description]`. -/
def generate_ai_content (endpoint : Poi → UserProfile → GenOutcome)
    (user : UserProfile) (poi : Poi) : POIResponse :=
  match endpoint poi user with
  | .ok g =>
    { title := g.title
      description := truncate_description poi.description.length g.description }
  | .exn =>
    { title := "[Error generating title]"
      description := "[Error generating description]" }

/-- The per-POI entry stored in the `ai_content` dictionary and in the
session-scoped cache file: a title/description pair keyed by POI id. -/
structure GeneratedContent where
  title : String
  description : String
  deriving DecidableEq, Repr

/-- The dictionary entry built from a `POIResponse` inside the loop of
`generate_all_poi_content`. -/
def contentOfResponse (r : POIResponse) : GeneratedContent :=
  { title := r.title, description := r.description }

/-- The loop of `generate_all_poi_content` (app.py lines 200-210,
survey_service.py lines 165-174): for each POI in order, call
`generate_ai_content` and record its id/content pair; the second
component lists the ids of the POIs for which `generate_ai_content`
(and hence the endpoint, which it invokes exactly once per call) was
invoked, in order. -/
def generateLoop (endpoint : Poi → UserProfile → GenOutcome)
    (user : UserProfile) : List Poi → List (String × GeneratedContent) × List String
  | [] => ([], [])
  | p :: rest =>
    let c := generate_ai_content endpoint user p
    let r := generateLoop endpoint user rest
    ((p.id, contentOfResponse c) :: r.1, p.id :: r.2)

/-- Result of one call to `generate_all_poi_content`: the returned
content map, the contents of the session-scoped cache file after the
call, and the ids of the POIs for which the generation endpoint was
invoked during the call. -/
structure GenerateAllResult where
  content : List (String × GeneratedContent)
  cacheFileAfter : Option (List (String × GeneratedContent))
  endpointInvocations : List String
  deriving DecidableEq, Repr

/-- Embedding of `generate_all_poi_content` (app.py lines 175-217,
survey_service.py lines 139-181).  `cacheFileBefore` is the prior
contents of the session-scoped file `temp_poi_content_<user_id>.json`
(`none` when absent).  The source opens that file only with mode `'w'`:
it never reads it, generates content for every POI in sequence, then
overwrites the file with the freshly generated map and returns that
map. -/
def generate_all_poi_content (endpoint : Poi → UserProfile → GenOutcome)
    (user : UserProfile) (pois : List Poi)
    (_cacheFileBefore : Option (List (String × GeneratedContent))) : GenerateAllResult :=
  let r := generateLoop endpoint user pois
  { content := r.1
    cacheFileAfter := some r.1
    endpointInvocations := r.2 }

/-! ## POI catalog loader (app.py lines 220-244, survey_service.py lines 19-44) -/

/-- One category of the catalog JSON document: the loader only reads its
`pois` list. -/
structure PoiCategory where
  pois : List Poi
  deriving DecidableEq, Repr

/-- The state of the catalog source file `data/pois.json` as observed by
`open` followed by `json.load`: the file can be absent, present but not
valid JSON, or present with a parsed document whose `categories` key
holds the given list. -/
inductive CatalogSource where
  | missing
  | malformed
  | parsed (categories : List PoiCategory)

/-- The Python exceptions relevant to the catalog loader: `open` raises
`FileNotFoundError` on a missing file, and `json.load` raises
`json.JSONDecodeError` on malformed contents. -/
inductive PyError where
  | fileNotFound
  | jsonDecodeError
  deriving DecidableEq, Repr

/-- The flat structure returned by `load_poi_data` on success:
`\x7b"name": "All POIs", "color": "purple", "pois": all_pois\x7d`. -/
structure PoiData where
  name : String
  color : String
  pois : List Poi
  deriving Repr

/-- The body of the `try` block of `load_poi_data`: open and parse the
file (raising on a missing or malformed file), then flatten the POIs of
all categories in order. -/
def load_poi_body : CatalogSource → Except PyError PoiData
  | .missing => .error .fileNotFound
  | .malformed => .error .jsonDecodeError
  | .parsed categories =>
    .ok { name := "All POIs", color := "purple"
          pois := (categories.map PoiCategory.pois).flatten }

/-- Embedding of `load_poi_data` (app.py lines 220-244, survey_service.py
lines 19-44).  The `try` block is wrapped in `except FileNotFoundError`
ONLY: that case displays the user-visible message and returns `None`;
any other exception is not caught and propagates to the caller
(modelled as `Except.error`).  The success value pairs the returned
dictionary with the list of `st.error` messages displayed. -/
def load_poi_data (source : CatalogSource) : Except PyError (Option PoiData × List String) :=
  match load_poi_body source with
  | .ok d => .ok (some d, [])
  | .error .fileNotFound =>
    .ok (none, ["POI data file not found. Please ensure 'data/pois.json' exists."])
  | .error e => .error e

/-! ## Per-POI A/B slot assignment (survey_routes.py lines 180-197, app.py lines 402-409) -/

/-- The `order_poi_<id>` entries of the Streamlit session state: an
association from POI id to the stored `is_manual_first` boolean. -/
abbrev SessionOrders := List (String × Bool)

/-- Lookup of `st.session_state[f'order_poi_\x7bpoi["id"]\x7d']`. -/
def lookupOrder : SessionOrders → String → Option Bool
  | [], _ => none
  | e :: rest, id => if e.1 = id then some e.2 else lookupOrder rest id

/-- Embedding of the slot-assignment logic at the top of
`show_poi_comparison` (survey_routes.py lines 180-184; app.py lines
402-409 is the same function on the stored value): if no order is stored
for this POI yet, store the freshly drawn coin and use it; otherwise use
the stored value unchanged.  Returns the updated session orders and the
`is_manual_first` value used for this render. -/
def renderComparisonOrder (s : SessionOrders) (id : String) (coin : Bool) :
    SessionOrders × Bool :=
  match lookupOrder s id with
  | some b => (s, b)
  | none => ((id, coin) :: s, coin)

/-- A sequence of re-renders of comparison steps: each element is the POI
id rendered together with the coin that `random.choice([True, False])`
would draw at that render. -/
def applyRenders (s : SessionOrders) (renders : List (String × Bool)) : SessionOrders :=
  renders.foldl (fun st r => (renderComparisonOrder st r.1 r.2).1) s

/-! ## Intake form validation (survey_routes.py lines 124-164) -/

/-- The fields of the intake form consulted by the validation in
`show_user_details_form`; the remaining demographic fields do not affect
acceptance. -/
structure IntakeForm where
  livein_city : String
  hobbies : List String
  preferred_travel_style : List String
  interests : List String
  deriving DecidableEq, Repr

/-- Embedding of Python `s.strip()`: remove leading and trailing
whitespace characters. -/
def pyStrip (s : String) : String :=
  String.mk (((s.data.dropWhile Char.isWhitespace).reverse.dropWhile Char.isWhitespace).reverse)

/-- Embedding of the `validation_errors` list built in
`show_user_details_form` (survey_routes.py lines 126-138): the four
checks, in source order, each appending its exact message when
violated. -/
def validationErrors (f : IntakeForm) : List String :=
  (if pyStrip f.livein_city = "" then ["Current City is required"] else []) ++
  (if f.hobbies.length < 3 then ["Please select at least 3 hobbies"] else []) ++
  (if f.preferred_travel_style.length < 3 then
    ["Please select at least 3 Preferred Travel Styles"] else []) ++
  (if f.interests.length < 3 then ["Please select at least 3 Travel Interests"] else [])

/-- The session state touched by the intake submission: the saved user
profile (`st.session_state.user_data`), absent until a valid
submission. -/
structure IntakeState where
  user_data : Option IntakeForm
  deriving DecidableEq, Repr

/-- Result of one submission of the intake form, from
`show_user_details_form` (survey_routes.py lines 124-164): the session
state after the submission, whether the function returned `True`
(advance past the intake page), and the list of validation-error
messages displayed via `st.error` (empty on acceptance). -/
structure IntakeOutcome where
  state : IntakeState
  accepted : Bool
  displayedErrors : List String
  deriving DecidableEq, Repr

/-- Embedding of the submit branch of `show_user_details_form`
(survey_routes.py lines 124-164): build the validation-error list; when
it is non-empty, display it and return `False` with the session state
untouched; otherwise save the profile into `st.session_state.user_data`
and return `True`. -/
def submitIntake (st : IntakeState) (f : IntakeForm) : IntakeOutcome :=
  let errs := validationErrors f
  if errs.isEmpty then
    { state := { user_data := some f }, accepted := true, displayedErrors := [] }
  else
    { state := st, accepted := false, displayedErrors := errs }

/-! ## Thank-you page restart (app.py lines 643-654) -/

/-- The session-scoped entities of one survey session, as initialised at
the top of app.py (lines 822-835) and keyed in `st.session_state`:
the page index, the saved profile, the generated content map, the
accumulated comparison responses (kept abstract as the rows appended),
the session's user UUID, and the per-POI A/B slot assignments. -/
structure AppSessionState where
  page : Int
  user_data : Option IntakeForm
  ai_content : List (String × GeneratedContent)
  survey_responses : List String
  user_id : String
  orders : SessionOrders

/-- Embedding of the `Start New Survey` button handler of
`show_thank_you` (app.py lines 650-654): it sets `page` to `0`,
`user_data` to the empty dict and `survey_responses` to the empty list,
then reruns.  No other session-state key is touched. -/
def show_thank_you_restart (s : AppSessionState) : AppSessionState :=
  { s with page := 0, user_data := none, survey_responses := [] }

/-! ## Final survey submission (survey_routes.py lines 455-517, survey_model.py lines 47-55) -/

/-- A rating radio widget of the final survey: either the default
`"No Selection"` or a selected value 1-5. -/
inductive RatingSelection where
  | noSelection
  | rating (n : Int)
  deriving DecidableEq, Repr

/-- The conversion applied by the submit handler of `show_thank_you`
(survey_routes.py lines 504-510): `None if x == "No Selection" else x`. -/
def ratingToOption : RatingSelection → Option Int
  | .noSelection => none
  | .rating n => some n

/-- The `FinalSurveyResponse` pydantic model (survey_model.py lines
47-55): the three ratings are declared as plain `int`, hence required
and non-optional; the text fields are `Optional[str]`. -/
structure FinalSurveyResponse where
  timestamp : String
  overall_rating : Int
  comments : Option String
  adaptation_rating : Int
  ai_comfort_rating : Int
  final_feedback : Option String
  lottery_email : Option String
  deriving DecidableEq, Repr

/-- Embedding of the pydantic validation performed when
`FinalSurveyResponse(...)` is constructed: a field declared `int`
rejects `None`, and pydantic collects every invalid field into one
`ValidationError` (modelled as the list of offending field names)
raised before the constructed object exists. -/
def mkFinalSurveyResponse (timestamp : String)
    (overall adaptation comfort : Option Int)
    (comments finalFeedback lotteryEmail : Option String) :
    Except (List String) FinalSurveyResponse :=
  match overall, adaptation, comfort with
  | some o, some a, some c =>
    .ok { timestamp := timestamp, overall_rating := o, comments := comments
          adaptation_rating := a, ai_comfort_rating := c
          final_feedback := finalFeedback, lottery_email := lotteryEmail }
  | _, _, _ =>
    .error ((if overall.isNone then ["overall_rating"] else []) ++
      (if adaptation.isNone then ["adaptation_rating"] else []) ++
      (if comfort.isNone then ["ai_comfort_rating"] else []))

/-- Embedding of the `Submit` button handler of `show_thank_you`
(survey_routes.py lines 503-516): convert each `"No Selection"` rating
to `None`, construct `FinalSurveyResponse`, then call
`save_final_response`, which writes a one-row CSV file.  A
`ValidationError` raised by the constructor propagates (`Except.error`)
before `save_final_response` is reached, so on error no CSV row is
written; on success the written rows are returned. -/
def final_survey_submit (timestamp : String)
    (overall adaptation comfort : RatingSelection)
    (comments finalFeedback email : String) :
    Except (List String) (List FinalSurveyResponse) :=
  match mkFinalSurveyResponse timestamp (ratingToOption overall)
      (ratingToOption adaptation) (ratingToOption comfort)
      (some comments) (some finalFeedback) (some email) with
  | .error e => .error e
  | .ok r => .ok [r]

/-! ## Concrete inputs used by counterexamples and witnesses -/

/-- A concrete survey row in which the AI-generated variant was displayed
as slot A (`is_manual_first = false`) and the respondent chose
"Version A" for the engaging question. -/
def aiShownFirstRow : RawPreferenceRow :=
  { is_manual_first := false
    engaging_preference := "Version A"
    relevant_preference := "Both equally"
    eager_preference := "Both equally"
    title_preference := "Both equally"
    description_preference := "Both equally" }

/-- A concrete POI. -/
def demoPoi : Poi :=
  { id := "poi-1", title := "Old Castle"
    description := "A castle with a long history.", imagesrc := "img/castle.png" }

/-- A second concrete POI. -/
def demoPoi2 : Poi :=
  { id := "poi-2", title := "City Museum"
    description := "A museum of local art and crafts.", imagesrc := "img/museum.png" }

/-- A concrete user profile. -/
def demoUser : UserProfile := [("age", "30"), ("city", "Stuttgart")]

/-- A generation endpoint that always succeeds with a short response. -/
def demoEndpoint : Poi → UserProfile → GenOutcome :=
  fun _ _ => .ok { title := "Castle", description := "A castle." }

/-! ## Claim theorems -/

/-- C1 counterexample: on a row whose `is_manual_first` is `false` (the
AI-generated variant was displayed as slot A), a choice of "Version A" —
that is, of the AI-generated variant — is scored +1 by
`process_survey_responses`, while the claim requires the AI choice to
score -1: the pipeline maps by displayed label and never consults
`is_manual_first`. -/
theorem preference_score_ignores_slot_counterexample :
    (process_survey_row aiShownFirstRow).engaging_preference_score = some 1
    ∧ claimVariantScore aiShownFirstRow.is_manual_first aiShownFirstRow.engaging_preference
        = some (-1)
    ∧ (process_survey_row aiShownFirstRow).engaging_preference_score
        ≠ claimVariantScore aiShownFirstRow.is_manual_first aiShownFirstRow.engaging_preference :=
  ⟨by decide, by decide, by decide⟩

/-- C1 (amended): each of the five forced-choice preference columns is
scored purely by its displayed label — "Version A" maps to +1,
"Version B" to -1, "Both equally" to 0 and any other value to missing
(never an error) — and the computed scores do not depend on the row's
`is_manual_first` field. -/
theorem preference_score_label_mapping (r : RawPreferenceRow) (b : Bool) :
    process_survey_row { r with is_manual_first := b } = process_survey_row r
    ∧ (r.engaging_preference = "Version A" →
        (process_survey_row r).engaging_preference_score = some 1)
    ∧ (r.engaging_preference = "Version B" →
        (process_survey_row r).engaging_preference_score = some (-1))
    ∧ (r.engaging_preference = "Both equally" →
        (process_survey_row r).engaging_preference_score = some 0)
    ∧ (r.engaging_preference ∉ ["Version A", "Version B", "Both equally"] →
        (process_survey_row r).engaging_preference_score = none)
    ∧ (process_survey_row r).relevant_preference_score
        = preferenceScoreMap r.relevant_preference
    ∧ (process_survey_row r).eager_preference_score
        = preferenceScoreMap r.eager_preference
    ∧ (process_survey_row r).title_preference_score
        = preferenceScoreMap r.title_preference
    ∧ (process_survey_row r).description_preference_score
        = preferenceScoreMap r.description_preference := by
  refine ⟨rfl, ?_, ?_, ?_, ?_, rfl, rfl, rfl, rfl⟩
  · intro h
    show preferenceScoreMap r.engaging_preference = some 1
    rw [h]
    decide
  · intro h
    show preferenceScoreMap r.engaging_preference = some (-1)
    rw [h]
    decide
  · intro h
    show preferenceScoreMap r.engaging_preference = some 0
    rw [h]
    decide
  · intro h
    simp only [List.mem_cons, List.not_mem_nil, or_false, not_or] at h
    show preferenceScoreMap r.engaging_preference = none
    simp [preferenceScoreMap, h.1, h.2.1, h.2.2]

/-- C1 witness: the amended mapping evaluated on the concrete row with
choice "Version A" and slot flag flipped. -/
theorem preference_score_label_mapping_witness :
    (process_survey_row aiShownFirstRow).engaging_preference_score = some 1
    ∧ process_survey_row { aiShownFirstRow with is_manual_first := true }
        = process_survey_row aiShownFirstRow := by
  have h := preference_score_label_mapping aiShownFirstRow true
  exact ⟨h.2.1 (by decide), h.1⟩

/-- C2 counterexample: with a one-POI catalog, a first call to
`generate_all_poi_content` succeeds and writes the cache file, yet the
second call for the same session, given that very cache, still invokes
the generation endpoint for the POI (its invocation list is non-empty),
and the returned map is rebuilt from fresh generation rather than read
back from the cache (a tampered cache does not change the output). -/
theorem generate_all_regenerates_counterexample :
    (generate_all_poi_content demoEndpoint demoUser [demoPoi]
        (generate_all_poi_content demoEndpoint demoUser [demoPoi] none).cacheFileAfter
      ).endpointInvocations = ["poi-1"]
    ∧ (["poi-1"] : List String) ≠ []
    ∧ (generate_all_poi_content demoEndpoint demoUser [demoPoi]
        (some [("poi-1", { title := "CACHED", description := "CACHED" })])).content
      = [("poi-1", { title := "Castle", description := "A castle." })] :=
  ⟨by decide, by decide, by decide⟩

/-- The second component of `generateLoop` records one endpoint
invocation per POI, in order. -/
theorem generateLoop_invocations (endpoint : Poi → UserProfile → GenOutcome)
    (user : UserProfile) :
    ∀ pois : List Poi, (generateLoop endpoint user pois).2 = pois.map Poi.id
  | [] => rfl
  | p :: rest => by
    simp [generateLoop, generateLoop_invocations endpoint user rest]

/-- C2 (amended): `generate_all_poi_content` never reads the
session-scoped cache file: every call invokes the generation endpoint
once per POI of the list (also a second call made after a successful
cache write), its result is independent of the prior cache contents,
and it overwrites the cache file with the freshly generated map. -/
theorem generate_all_ignores_cache (endpoint : Poi → UserProfile → GenOutcome)
    (user : UserProfile) (pois : List Poi)
    (cache1 cache2 : Option (List (String × GeneratedContent))) :
    (generate_all_poi_content endpoint user pois cache1).endpointInvocations
      = pois.map Poi.id
    ∧ generate_all_poi_content endpoint user pois cache1
      = generate_all_poi_content endpoint user pois cache2
    ∧ (generate_all_poi_content endpoint user pois cache1).cacheFileAfter
      = some (generate_all_poi_content endpoint user pois cache1).content :=
  ⟨generateLoop_invocations endpoint user pois, rfl, rfl⟩

/-- Dropping the final partial word never lengthens a list. -/
theorem beforeLastSpace_length_le : ∀ l : List Char, (beforeLastSpace l).length ≤ l.length
  | [] => Nat.le_refl _
  | c :: cs => by
    simp only [beforeLastSpace]
    split
    · simpa using Nat.succ_le_succ (beforeLastSpace_length_le cs)
    · split
      · simp
      · exact Nat.le_refl _

/-- The truncated description never exceeds the length limit. -/
theorem truncate_description_length_le (maxLen : Nat) (s : String) :
    (truncate_description maxLen s).length ≤ maxLen := by
  unfold truncate_description
  split
  · calc (String.mk (beforeLastSpace (s.data.take maxLen))).length
        = (beforeLastSpace (s.data.take maxLen)).length := rfl
      _ ≤ (s.data.take maxLen).length := beforeLastSpace_length_le _
      _ ≤ maxLen := by simp [List.length_take]
  · next h =>
      show s.length ≤ maxLen
      omega

/-- A generation endpoint whose description is far longer than the demo
POI's original description. -/
def demoLongEndpoint : Poi → UserProfile → GenOutcome :=
  fun _ _ => .ok
    { title := "Timeless Towers"
      description := "An exceedingly long personalised description that certainly exceeds the character budget of the original text." }

/-- C3: for every POI, user profile and successfully parsed endpoint
response, the description returned by `generate_ai_content` after
post-processing is at most as long (in characters) as the POI's
original description. -/
theorem generated_description_length_le (endpoint : Poi → UserProfile → GenOutcome)
    (user : UserProfile) (poi : Poi) (g : POIResponse)
    (h : endpoint poi user = GenOutcome.ok g) :
    (generate_ai_content endpoint user poi).description.length ≤ poi.description.length := by
  unfold generate_ai_content
  rw [h]
  exact truncate_description_length_le poi.description.length g.description

/-- C3 witness: the length bound evaluated on the concrete POI and an
endpoint response that overshoots the limit. -/
theorem generated_description_length_le_witness :
    (generate_ai_content demoLongEndpoint demoUser demoPoi).description.length
      ≤ demoPoi.description.length :=
  generated_description_length_le demoLongEndpoint demoUser demoPoi
    { title := "Timeless Towers"
      description := "An exceedingly long personalised description that certainly exceeds the character budget of the original text." }
    rfl

/-- The truncated text `trunc` cuts a word of `orig` in the middle:
`trunc` is the corresponding non-empty character-for-character beginning
of `orig`, it does not end in a space, and `orig` continues with a
non-space character right after it. -/
def splitsMidWord (orig trunc : String) : Bool :=
  decide (trunc.data = orig.data.take trunc.length) &&
  !trunc.data.isEmpty &&
  (match trunc.data.getLast? with
   | some c => c != ' '
   | none => false) &&
  (match orig.data.get? trunc.length with
   | some c => c != ' '
   | none => false)

/-- C4 counterexample: a generated description of 8 characters with no
space, truncated to an original length of 5, is cut to `"abcde"` — a
partial word fragment, not a whitespace boundary — so the claim that
truncation never splits a word, including for outputs whose
length-limited beginning contains no whitespace, is false. -/
theorem truncation_splits_word_counterexample :
    truncate_description 5 "abcdefgh" = "abcde"
    ∧ splitsMidWord ("abcdefgh") (truncate_description 5 "abcdefgh") = true :=
  ⟨by decide, by decide⟩

/-- When a character list contains a space, `beforeLastSpace` returns
exactly the part strictly before the last space: the list decomposes as
that part, the space, and a space-free remainder. -/
theorem beforeLastSpace_spec (l : List Char) (h : ' ' ∈ l) :
    ∃ rest, l = beforeLastSpace l ++ ' ' :: rest ∧ ' ' ∉ rest := by
  induction l with
  | nil => exact absurd h (List.not_mem_nil _)
  | cons c cs ih =>
    by_cases hcs : ' ' ∈ cs
    · obtain ⟨rest, hr, hnr⟩ := ih hcs
      refine ⟨rest, ?_, hnr⟩
      simp only [beforeLastSpace, if_pos hcs, List.cons_append]
      exact congrArg (List.cons c) hr
    · have hc : c = ' ' := by
        rcases List.mem_cons.mp h with h1 | h1
        · exact h1.symm
        · exact absurd h1 hcs
      subst hc
      refine ⟨cs, ?_, hcs⟩
      simp [beforeLastSpace, hcs]

/-- C4 (amended): when the generated description exceeds the original's
length and the length-limited beginning contains at least one space, the
truncated description is exactly that beginning cut at its last space —
it is followed in the generated text by that space and a space-free
remainder, so it ends at a whitespace boundary; when the beginning
contains no space it is kept whole and can end mid-word (see the
counterexample). -/
theorem truncation_space_boundary (maxLen : Nat) (s : String)
    (hlen : s.length > maxLen) (hsp : ' ' ∈ s.data.take maxLen) :
    ∃ rest, s.data.take maxLen = (truncate_description maxLen s).data ++ ' ' :: rest
      ∧ ' ' ∉ rest := by
  unfold truncate_description
  rw [if_pos hlen]
  exact beforeLastSpace_spec _ hsp

/-- C4 witness: the space-boundary decomposition evaluated on a concrete
over-long description whose limited beginning contains a space. -/
theorem truncation_space_boundary_witness :
    ∃ rest, ("ab cdefgh" : String).data.take 5
        = (truncate_description 5 "ab cdefgh").data ++ ' ' :: rest
      ∧ ' ' ∉ rest :=
  truncation_space_boundary 5 "ab cdefgh" (by decide) (by decide)

/-- C5 counterexample: on a malformed (present but invalid-JSON) catalog
file, `load_poi_data` does not produce the user-visible
CatalogUnavailable outcome (`None` plus an error message): the
`json.JSONDecodeError` raised by `json.load` is outside the
`except FileNotFoundError` handler and propagates raw to the caller,
while only the missing-file case is converted. -/
theorem malformed_catalog_propagates_counterexample :
    load_poi_data CatalogSource.malformed = Except.error PyError.jsonDecodeError
    ∧ load_poi_data CatalogSource.missing
      = Except.ok (none, ["POI data file not found. Please ensure 'data/pois.json' exists."]) :=
  ⟨rfl, rfl⟩

/-- C5 (amended): the catalog loader converts only the missing-file case
into the user-visible error-and-`None` outcome; a malformed file makes
the JSON decode exception propagate to the caller, and a well-formed
file yields the flattened catalog with no error message. -/
theorem load_poi_data_cases (categories : List PoiCategory) :
    load_poi_data CatalogSource.missing
      = Except.ok (none, ["POI data file not found. Please ensure 'data/pois.json' exists."])
    ∧ load_poi_data CatalogSource.malformed = Except.error PyError.jsonDecodeError
    ∧ load_poi_data (CatalogSource.parsed categories)
      = Except.ok
          (some { name := "All POIs", color := "purple",
                  pois := (categories.map PoiCategory.pois).flatten }, []) :=
  ⟨rfl, rfl, rfl⟩

/-- A single render of any comparison step leaves every already-stored
slot assignment untouched. -/
theorem lookupOrder_render_preserve (s : SessionOrders) (id id2 : String)
    (coin b : Bool) (h : lookupOrder s id = some b) :
    lookupOrder (renderComparisonOrder s id2 coin).1 id = some b := by
  unfold renderComparisonOrder
  cases hl : lookupOrder s id2 with
  | some b2 => exact h
  | none =>
    show lookupOrder ((id2, coin) :: s) id = some b
    by_cases he : id2 = id
    · rw [he] at hl
      rw [hl] at h
      exact absurd h (by simp)
    · simpa [lookupOrder, he] using h

/-- A whole sequence of renders leaves every already-stored slot
assignment untouched. -/
theorem lookupOrder_applyRenders_preserve (renders : List (String × Bool)) :
    ∀ (s : SessionOrders) (id : String) (b : Bool), lookupOrder s id = some b →
      lookupOrder (applyRenders s renders) id = some b := by
  induction renders with
  | nil => intro s id b h; exact h
  | cons r rest ih =>
    intro s id b h
    exact ih _ _ _ (lookupOrder_render_preserve s id r.1 r.2 b h)

/-- C6: once the per-POI `is_manual_first` slot assignment is stored in
the session state, any sequence of further renders of any comparison
steps (with arbitrary fresh coin flips) keeps the stored value, and a
re-render of that POI's step observes the same assignment and leaves
the session orders unchanged: the value is never re-rolled or
overwritten. -/
theorem slot_assignment_stable (s : SessionOrders) (id : String) (b : Bool)
    (h : lookupOrder s id = some b) (renders : List (String × Bool)) (coin : Bool) :
    lookupOrder (applyRenders s renders) id = some b
    ∧ (renderComparisonOrder (applyRenders s renders) id coin).2 = b
    ∧ (renderComparisonOrder (applyRenders s renders) id coin).1 = applyRenders s renders := by
  have hp := lookupOrder_applyRenders_preserve renders s id b h
  refine ⟨hp, ?_, ?_⟩ <;> simp [renderComparisonOrder, hp]

/-- C6 witness: stability evaluated on a concrete session in which POI
`poi-1` is assigned `true`, after re-renders of another POI and of
`poi-1` itself with opposite coins. -/
theorem slot_assignment_stable_witness :
    lookupOrder (applyRenders [("poi-1", true)] [("poi-2", false), ("poi-1", false)]) "poi-1"
      = some true
    ∧ (renderComparisonOrder
        (applyRenders [("poi-1", true)] [("poi-2", false), ("poi-1", false)]) "poi-1" false).2
      = true
    ∧ (renderComparisonOrder
        (applyRenders [("poi-1", true)] [("poi-2", false), ("poi-1", false)]) "poi-1" false).1
      = applyRenders [("poi-1", true)] [("poi-2", false), ("poi-1", false)] :=
  slot_assignment_stable [("poi-1", true)] "poi-1" true rfl
    [("poi-2", false), ("poi-1", false)] false

/-- C7: the intake submission is accepted exactly when the city is
non-empty after stripping whitespace and each of hobbies, preferred
travel styles and travel interests has at least 3 selections; a
rejected submission leaves the session state unchanged (no profile
saved) and displays the validation-error list, which itemizes every
unmet rule with its message — in particular, fewer than 3 hobbies
yields the message "Please select at least 3 hobbies", which contains
the phrase "select at least 3 hobbies". -/
theorem intake_validation (st : IntakeState) (f : IntakeForm) :
    ((submitIntake st f).accepted = true ↔
      (pyStrip f.livein_city ≠ "" ∧ 3 ≤ f.hobbies.length ∧
        3 ≤ f.preferred_travel_style.length ∧ 3 ≤ f.interests.length))
    ∧ ((submitIntake st f).accepted = false → (submitIntake st f).state = st)
    ∧ ((submitIntake st f).accepted = false →
        (submitIntake st f).displayedErrors = validationErrors f)
    ∧ (pyStrip f.livein_city = "" → "Current City is required" ∈ validationErrors f)
    ∧ (f.hobbies.length < 3 → "Please select at least 3 hobbies" ∈ validationErrors f)
    ∧ (f.preferred_travel_style.length < 3 →
        "Please select at least 3 Preferred Travel Styles" ∈ validationErrors f)
    ∧ (f.interests.length < 3 → "Please select at least 3 Travel Interests" ∈ validationErrors f)
    ∧ "Please select at least 3 hobbies" = "Please " ++ "select at least 3 hobbies" := by
  refine ⟨?_, ?_, ?_, ?_, ?_, ?_, ?_, by decide⟩
  · by_cases h1 : pyStrip f.livein_city = "" <;>
      by_cases h2 : f.hobbies.length < 3 <;>
      by_cases h3 : f.preferred_travel_style.length < 3 <;>
      by_cases h4 : f.interests.length < 3 <;>
      (simp [submitIntake, validationErrors, h1, h2, h3, h4]; all_goals omega)
  · intro h
    by_cases he : (validationErrors f).isEmpty <;>
      simp [submitIntake, he] at h ⊢
  · intro h
    by_cases he : (validationErrors f).isEmpty <;>
      simp [submitIntake, he] at h ⊢
  · intro h; simp [validationErrors, h]
  · intro h; simp [validationErrors, h]
  · intro h; simp [validationErrors, h]
  · intro h; simp [validationErrors, h]

/-- A concrete intake submission with a non-empty city but only two
hobbies selected. -/
def intakeTwoHobbies : IntakeForm :=
  { livein_city := "Stuttgart"
    hobbies := ["Reading", "Music"]
    preferred_travel_style := ["Budget", "Cultural", "Solo"]
    interests := ["Architecture", "Shopping", "Nightlife"] }

/-- C7 witness: the validation evaluated on the concrete two-hobby
submission: it is rejected, the state is unchanged, and the error list
names the hobby rule. -/
theorem intake_validation_witness :
    "Please select at least 3 hobbies" ∈ validationErrors intakeTwoHobbies
    ∧ (submitIntake { user_data := none } intakeTwoHobbies).state = { user_data := none } := by
  have h := intake_validation { user_data := none } intakeTwoHobbies
  exact ⟨h.2.2.2.2.1 (by decide), h.2.1 (by decide)⟩

/-- The first component of `generateLoop` holds one entry per POI, each
computed from that POI's own `generate_ai_content` call. -/
theorem generateLoop_content (endpoint : Poi → UserProfile → GenOutcome)
    (user : UserProfile) :
    ∀ pois : List Poi,
      (generateLoop endpoint user pois).1
        = pois.map (fun p => (p.id, contentOfResponse (generate_ai_content endpoint user p)))
  | [] => rfl
  | p :: rest => by
    simp [generateLoop, generateLoop_content endpoint user rest]

/-- C8: any exception from the generation endpoint for a POI makes
`generate_ai_content` return the sentinel response instead of
propagating, and `generate_all_poi_content` builds one entry per POI of
the batch, each from its own independent `generate_ai_content` call —
so a failure on one POI neither aborts the batch nor affects the other
POIs' entries. -/
theorem generation_failure_isolation (endpoint : Poi → UserProfile → GenOutcome)
    (user : UserProfile) (pois : List Poi)
    (cache : Option (List (String × GeneratedContent))) :
    (∀ p, endpoint p user = GenOutcome.exn →
      generate_ai_content endpoint user p
        = { title := "[Error generating title]",
            description := "[Error generating description]" })
    ∧ (generate_all_poi_content endpoint user pois cache).content
        = pois.map (fun p => (p.id, contentOfResponse (generate_ai_content endpoint user p))) := by
  constructor
  · intro p hp
    unfold generate_ai_content
    rw [hp]
  · exact generateLoop_content endpoint user pois

/-- A generation endpoint that raises on the first demo POI and succeeds
on every other POI. -/
def failFirstEndpoint : Poi → UserProfile → GenOutcome := fun p _ =>
  if p.id = "poi-1" then .exn
  else .ok { title := "Fresh Look", description := "A nice local spot." }

/-- C8 witness: with an endpoint that raises on POI `poi-1` of a
two-POI batch, `poi-1` gets the sentinel content and `poi-2` still gets
its own generated entry. -/
theorem generation_failure_isolation_witness :
    generate_ai_content failFirstEndpoint demoUser demoPoi
      = { title := "[Error generating title]",
          description := "[Error generating description]" }
    ∧ (generate_all_poi_content failFirstEndpoint demoUser [demoPoi, demoPoi2] none).content
      = [demoPoi, demoPoi2].map
          (fun p => (p.id, contentOfResponse (generate_ai_content failFirstEndpoint demoUser p))) := by
  have h := generation_failure_isolation failFirstEndpoint demoUser [demoPoi, demoPoi2] none
  exact ⟨h.1 demoPoi (by decide), h.2⟩

/-- A concrete finished session carrying a profile, generated content,
one recorded response, a user UUID and one per-POI slot assignment. -/
def finishedSession : AppSessionState :=
  { page := -1
    user_data := some intakeTwoHobbies
    ai_content := [("poi-1", { title := "Castle", description := "A castle." })]
    survey_responses := ["row-1"]
    user_id := "session-uuid-1"
    orders := [("poi-1", true)] }

/-- C9 counterexample: the `Start New Survey` restart action on a
concrete finished session keeps the previous session's user UUID,
generated content map and per-POI A/B slot assignments observable in
the next session — it re-initializes only the page, the profile and the
accumulated responses, not every session-scoped entity. -/
theorem restart_keeps_state_counterexample :
    (show_thank_you_restart finishedSession).user_id = "session-uuid-1"
    ∧ (show_thank_you_restart finishedSession).ai_content
        = [("poi-1", { title := "Castle", description := "A castle." })]
    ∧ (show_thank_you_restart finishedSession).orders = [("poi-1", true)]
    ∧ (show_thank_you_restart finishedSession).ai_content ≠ []
    ∧ (show_thank_you_restart finishedSession).orders ≠ []
    ∧ (show_thank_you_restart finishedSession).user_id ≠ "" :=
  ⟨rfl, rfl, rfl, by decide, by decide, by decide⟩

/-- C9 (amended): the restart action resets the page to the intake page
and clears the saved profile and the accumulated responses, but leaves
the session's user UUID, the generated content map and the per-POI A/B
slot assignments untouched. -/
theorem restart_resets_page_profile_responses (s : AppSessionState) :
    (show_thank_you_restart s).page = 0
    ∧ (show_thank_you_restart s).user_data = none
    ∧ (show_thank_you_restart s).survey_responses = []
    ∧ (show_thank_you_restart s).ai_content = s.ai_content
    ∧ (show_thank_you_restart s).user_id = s.user_id
    ∧ (show_thank_you_restart s).orders = s.orders :=
  ⟨rfl, rfl, rfl, rfl, rfl, rfl⟩

/-- C10: when any of the three final-survey ratings is left at
`"No Selection"`, the submit handler passes `None` for it, the required
(non-optional) integer fields of `FinalSurveyResponse` reject it, and
the resulting validation error propagates before `save_final_response`
is reached: the submission produces an error naming the offending
fields and writes no final-responses CSV row. -/
theorem final_survey_missing_rating_blocks_save (timestamp : String)
    (overall adaptation comfort : RatingSelection)
    (comments finalFeedback email : String)
    (h : overall = RatingSelection.noSelection ∨ adaptation = RatingSelection.noSelection
      ∨ comfort = RatingSelection.noSelection) :
    ∃ errs, final_survey_submit timestamp overall adaptation comfort comments finalFeedback email
        = Except.error errs
      ∧ errs ≠ [] := by
  cases overall with
  | noSelection =>
    cases adaptation <;> cases comfort <;>
      simp [final_survey_submit, mkFinalSurveyResponse, ratingToOption]
  | rating o =>
    cases adaptation with
    | noSelection =>
      cases comfort <;>
        simp [final_survey_submit, mkFinalSurveyResponse, ratingToOption]
    | rating a =>
      cases comfort with
      | noSelection => simp [final_survey_submit, mkFinalSurveyResponse, ratingToOption]
      | rating c => simp at h

/-- C10 witness: a concrete final-survey submission that leaves the
overall rating at `"No Selection"` fails validation and writes
nothing. -/
theorem final_survey_missing_rating_blocks_save_witness :
    ∃ errs, final_survey_submit ("2025-01-01T12:00:00") RatingSelection.noSelection
        (RatingSelection.rating 4) (RatingSelection.rating 5) "fine" "thanks" "a@b.de"
        = Except.error errs
      ∧ errs ≠ [] :=
  final_survey_missing_rating_blocks_save ("2025-01-01T12:00:00") RatingSelection.noSelection
    (RatingSelection.rating 4) (RatingSelection.rating 5) "fine" "thanks" "a@b.de"
    (Or.inl rfl)

end PoISurvey
